import Mathlib

/-!
Shallow embedding of the step-progress indicator in
src/ai-mapping-agent/utils/ui_utils.py and src/ai-mapping-agent/app.py.

The Python module stores a fixed list STEPS of four stage names, reads an
integer step index out of the Streamlit session state via
int(st.session_state.get("current_step", 0)), and renders a text label
"Step {step + 1} of {len(STEPS)}" together with a progress fraction
(step + 1) / len(STEPS).

Session-state values are modelled by a small Python value type PyVal;
the int(...) builtin conversion is modelled by pyToInt; true division is
modelled over the rationals and raises ZeroDivisionError on a zero
denominator, as in Python.  The session state itself is an association
list of string keys to values; the component reads it through a get-with-
default operation and its interactions with the store are also recorded
as an explicit operation trace (SessOp) so that the read-only frame
property can be stated.
-/

/-- A Python runtime value, restricted to the shapes relevant to the
session-state key "current_step": integers, (finite) floats modelled as
rationals, booleans, strings, and None. -/
inductive PyVal where
  | int (n : Int)
  | float (q : Rat)
  | bool (b : Bool)
  | str (s : String)
  | none
deriving DecidableEq, Repr

/-- A Python exception, restricted to those the component can raise:
ValueError and TypeError from the int(...) conversion and
ZeroDivisionError from true division. -/
inductive PyErr where
  | valueError (msg : String)
  | typeError (msg : String)
  | zeroDivisionError
deriving DecidableEq, Repr

/-- Decimal digit test, as used when parsing an integer literal string. -/
def isDecDigit (c : Char) : Bool :=
  48 ≤ c.toNat && c.toNat ≤ 57

/-- Accumulate a list of decimal digit characters into a natural number. -/
def digitsToNat (cs : List Char) : Nat :=
  cs.foldl (fun a c => 10 * a + (c.toNat - 48)) 0

/-- Drop leading and trailing space characters, modelling the whitespace
stripping that int(...) performs on string arguments. -/
def stripSpaces (cs : List Char) : List Char :=
  ((cs.dropWhile (fun c => c = ' ')).reverse.dropWhile (fun c => c = ' ')).reverse

/-- Split an optional leading sign off a character list; returns whether
the sign was negative together with the remaining characters. -/
def splitSign : List Char → Bool × List Char
  | '-' :: rest => (true, rest)
  | '+' :: rest => (false, rest)
  | cs => (false, cs)

/-- Parse a string as a base-10 Python integer literal: optional
surrounding whitespace, an optional sign, then at least one decimal
digit.  Returns Option.none when int(...) would raise ValueError. -/
def pyStrToInt (s : String) : Option Int :=
  let cs := stripSpaces s.data
  let p := splitSign cs
  if p.2 ≠ [] ∧ p.2.all isDecDigit then
    Option.some (if p.1 then -(digitsToNat p.2 : Int) else (digitsToNat p.2 : Int))
  else
    Option.none

/-- Truncation of a rational toward zero, modelling int(...) applied to a
finite Python float.  Int.div is T-division, which truncates toward zero,
and the denominator of a Rat is positive. -/
def ratTruncTowardZero (q : Rat) : Int :=
  Int.tdiv q.num (q.den : Int)

/-- The Python builtin int(...) conversion on a PyVal: identity on
integers, True maps to 1 and False to 0, finite floats truncate toward
zero, strings parse as decimal integer literals or raise ValueError, and
None raises TypeError. -/
def pyToInt : PyVal → Except PyErr Int
  | PyVal.int n => Except.ok n
  | PyVal.bool b => Except.ok (if b then 1 else 0)
  | PyVal.float q => Except.ok (ratTruncTowardZero q)
  | PyVal.str s =>
      match pyStrToInt s with
      | Option.some n => Except.ok n
      | Option.none => Except.error (PyErr.valueError ("invalid literal for int with base 10: " ++ s))
  | PyVal.none => Except.error (PyErr.typeError "int argument must be a string, a bytes-like object or a real number, not NoneType")

/-- Python true division over the rationals: raises ZeroDivisionError
when the denominator is zero. -/
def pyDiv (a b : Rat) : Except PyErr Rat :=
  if b = 0 then Except.error PyErr.zeroDivisionError else Except.ok (a / b)

/-- The Streamlit session state, modelled as an association list from
string keys to Python values (first binding for a key wins, as after the
most recent dict write). -/
abbrev SessionState := List (String × PyVal)

/-- Dict-style get with default: st.session_state.get(k, d). -/
def sessGet (s : SessionState) (k : String) (d : PyVal) : PyVal :=
  match s.lookup k with
  | Option.some v => v
  | Option.none => d

/-- A host-side write to the session state (the component itself never
performs one; this is how the external workflow driver stores
"current_step"). -/
def sessSet (s : SessionState) (k : String) (v : PyVal) : SessionState :=
  (k, v) :: s

/-- STEPS, the fixed registry of workflow stage names from ui_utils.py. -/
def STEPS : List String :=
  ["Upload File", "Map Accounts", "Review Results", "Finalize"]

/-- compute_current_step from ui_utils.py:
int(st.session_state.get("current_step", 0)). -/
def compute_current_step (s : SessionState) : Except PyErr Int :=
  pyToInt (sessGet s "current_step" (PyVal.int 0))

/-- An event emitted to the Streamlit rendering surface: st.write of a
text line, or st.progress of a fraction. -/
inductive UIEvent where
  | writeText (s : String)
  | writeProgress (fraction : Rat)
deriving DecidableEq, Repr

/-- The f-string in render_progress: "Step {step + 1} of {n}". -/
def progressLabel (step : Int) (n : Nat) : String :=
  "Step " ++ toString (step + 1) ++ " of " ++ toString n

/-- render_progress from ui_utils.py, generalised over the registry list
so that the behaviour on an empty registry can be stated: compute
progress = (step + 1) / len(registry), then st.write the label, then
st.progress the fraction.  The division raises before anything is
emitted when the registry is empty. -/
def render_progress_in (registry : List String) (step : Int) : Except PyErr (List UIEvent) :=
  match pyDiv ((step : Rat) + 1) (registry.length : Rat) with
  | Except.error e => Except.error e
  | Except.ok progress =>
      Except.ok [UIEvent.writeText (progressLabel step registry.length),
                 UIEvent.writeProgress progress]

/-- render_progress from ui_utils.py, on the fixed STEPS registry it
actually uses. -/
def render_progress (step : Int) : Except PyErr (List UIEvent) :=
  render_progress_in STEPS step

/-- main from app.py: step = compute_current_step(); render_progress(step).
An exception from the conversion propagates and render_progress is not
reached.  (Named main_pass because Lean reserves main for entry points.) -/
def main_pass (s : SessionState) : Except PyErr (List UIEvent) :=
  match compute_current_step s with
  | Except.error e => Except.error e
  | Except.ok step => render_progress step

/-- An operation issued against the session-state store. -/
inductive SessOp where
  | read (key : String) (dflt : PyVal)
  | write (key : String) (val : PyVal)
deriving DecidableEq, Repr

/-- Whether a session-state operation mutates the store. -/
def SessOp.isWrite : SessOp → Bool
  | SessOp.read _ _ => false
  | SessOp.write _ _ => true

/-- Effect of one session-state operation on the store: a read leaves it
unchanged, a write adds a binding. -/
def applySessOp (s : SessionState) : SessOp → SessionState
  | SessOp.read _ _ => s
  | SessOp.write k v => (k, v) :: s

/-- Effect of a sequence of session-state operations on the store. -/
def applySessOps (ops : List SessOp) (s : SessionState) : SessionState :=
  ops.foldl applySessOp s

/-- The trace of session-state operations performed by
compute_current_step: the single get-with-default on "current_step". -/
def compute_current_step_ops : List SessOp :=
  [SessOp.read "current_step" (PyVal.int 0)]

/-- The trace of session-state operations performed by render_progress:
it only touches the rendering surface, never the store. -/
def render_progress_ops : List SessOp :=
  []

/-- The trace of session-state operations performed by one full main
pass. -/
def main_ops : List SessOp :=
  compute_current_step_ops ++ render_progress_ops

/-- Equality of render results is decidable, so that concrete render
outputs can be checked by case analysis. -/
instance instDecEqRenderResult : DecidableEq (Except PyErr (List UIEvent)) := fun a b =>
  match a, b with
  | Except.ok x, Except.ok y => decidable_of_iff (x = y) (by simp)
  | Except.error x, Except.error y => decidable_of_iff (x = y) (by simp)
  | Except.ok _, Except.error _ => Decidable.isFalse (by simp)
  | Except.error _, Except.ok _ => Decidable.isFalse (by simp)

/-- Truncation toward zero agrees with the floor on nonnegative
rationals and with the ceiling on the rest: this is exactly what
int(...) does to a finite Python float. -/
theorem ratTruncTowardZero_eq_floor_or_ceil (q : Rat) :
    ratTruncTowardZero q = if 0 ≤ q then ⌊q⌋ else ⌈q⌉ := by
  unfold ratTruncTowardZero
  by_cases h : 0 ≤ q
  · rw [if_pos h, Rat.floor_def]
    exact Int.tdiv_eq_ediv (Rat.num_nonneg.mpr h) (Int.ofNat_nonneg _)
  · rw [if_neg h]
    have hq : 0 ≤ -q := le_of_lt (neg_pos.mpr (lt_of_not_ge h))
    have h1 : (0 : Int) ≤ -q.num := by
      have := Rat.num_nonneg.mpr hq
      rwa [Rat.num_neg_eq_neg_num] at this
    have h2 : ⌈q⌉ = -⌊-q⌋ := by rw [Int.floor_neg, neg_neg]
    rw [h2, Rat.floor_def, Rat.num_neg_eq_neg_num, Rat.den_neg_eq_den,
        ← Int.tdiv_eq_ediv h1 (Int.ofNat_nonneg _), Int.neg_tdiv, neg_neg]

/-- C1: for every valid index i in [0, count()-1], render(i) emits the
label "Step {i+1} of {count()}" and exactly the progress fraction
(i+1)/count(). -/
theorem render_progress_valid_index (i : Nat) (h : i < STEPS.length) :
    render_progress (i : Int) =
      Except.ok [UIEvent.writeText ("Step " ++ toString (i + 1) ++ " of " ++ toString STEPS.length),
                 UIEvent.writeProgress (((i : Rat) + 1) / (STEPS.length : Rat))] := by
  have h4 : i < 4 := by simpa [STEPS] using h
  interval_cases i <;>
    (simp [render_progress, render_progress_in, pyDiv, progressLabel, STEPS]; rfl)

/-- Witness for C1 at the concrete index 2. -/
theorem render_progress_valid_index_witness :
    2 < STEPS.length ∧
      render_progress ((2 : Nat) : Int) =
        Except.ok [UIEvent.writeText ("Step " ++ toString ((2 : Nat) + 1) ++ " of " ++ toString STEPS.length),
                   UIEvent.writeProgress ((((2 : Nat) : Rat) + 1) / (STEPS.length : Rat))] :=
  ⟨by decide, render_progress_valid_index 2 (by decide)⟩

/-- C2: writing any integer v under "current_step" and reading it back
through compute_current_step is the identity; no validation or clamping
happens, so negative and out-of-range integers pass through verbatim. -/
theorem compute_current_step_roundtrip (s : SessionState) (v : Int) :
    compute_current_step (sessSet s "current_step" (PyVal.int v)) = Except.ok v := by
  simp [compute_current_step, sessSet, sessGet, pyToInt, List.lookup]

/-- C3: with "current_step" = 5 (out of range) the full
compute-then-render pass emits the label "Step 6 of 4" and the
uncorrected progress fraction 1.5. -/
theorem main_pass_out_of_range :
    main_pass [("current_step", PyVal.int 5)] =
      Except.ok [UIEvent.writeText "Step 6 of 4", UIEvent.writeProgress (3 / 2 : Rat)] := by
  simp [main_pass, compute_current_step, sessGet, pyToInt, render_progress,
        render_progress_in, pyDiv, progressLabel, STEPS]
  norm_num
  rfl

/-- C4: on every session state lacking the "current_step" key,
compute_current_step returns 0 and the full pass emits "Step 1 of 4"
with progress 0.25. -/
theorem empty_state_pass (s : SessionState)
    (h : s.lookup "current_step" = Option.none) :
    compute_current_step s = Except.ok 0 ∧
      main_pass s = Except.ok [UIEvent.writeText "Step 1 of 4", UIEvent.writeProgress (1 / 4 : Rat)] := by
  have h0 : compute_current_step s = Except.ok 0 := by
    simp [compute_current_step, sessGet, h, pyToInt]
  refine ⟨h0, ?_⟩
  simp [main_pass, h0, render_progress, render_progress_in, pyDiv, progressLabel, STEPS]
  rfl

/-- Witness for C4 at the empty session state. -/
theorem empty_state_pass_witness :
    ([] : SessionState).lookup "current_step" = Option.none ∧
      (compute_current_step [] = Except.ok 0 ∧
        main_pass [] =
          Except.ok [UIEvent.writeText "Step 1 of 4", UIEvent.writeProgress (1 / 4 : Rat)]) :=
  ⟨rfl, empty_state_pass [] rfl⟩

/-- C5: compute_current_step produces an error exactly when the stored
value cannot be converted to an integer by int(...) — concretely, when
it is a non-numeric string or None — and such an error propagates
through the full pass instead of being coerced to 0. -/
theorem compute_current_step_invalid_state (s : SessionState) :
    ((∃ e, compute_current_step s = Except.error e) ↔
        (∀ n : Int, pyToInt (sessGet s "current_step" (PyVal.int 0)) ≠ Except.ok n)) ∧
    ((∃ e, compute_current_step s = Except.error e) ↔
        ((∃ txt, sessGet s "current_step" (PyVal.int 0) = PyVal.str txt ∧
            pyStrToInt txt = Option.none) ∨
          sessGet s "current_step" (PyVal.int 0) = PyVal.none)) ∧
    (∀ e, compute_current_step s = Except.error e → main_pass s = Except.error e) := by
  refine ⟨?_, ?_, ?_⟩
  · unfold compute_current_step
    cases hpy : pyToInt (sessGet s "current_step" (PyVal.int 0)) with
    | ok n => simp
    | error e => simp
  · unfold compute_current_step
    cases hv : sessGet s "current_step" (PyVal.int 0) with
    | int n => simp [pyToInt]
    | float q => simp [pyToInt]
    | bool b => simp [pyToInt]
    | str txt =>
        cases hp : pyStrToInt txt with
        | none => simp [pyToInt, hp]
        | some n => simp [pyToInt, hp]
    | none => simp [pyToInt]
  · intro e h
    simp [main_pass, h]

/-- Witness for C5 on a session state holding a non-numeric string: the
conversion error reaches the caller of the full pass. -/
theorem compute_current_step_invalid_state_witness :
    main_pass [("current_step", PyVal.str "abc")] =
      Except.error (PyErr.valueError ("invalid literal for int with base 10: " ++ "abc")) :=
  (compute_current_step_invalid_state [("current_step", PyVal.str "abc")]).2.2
    (PyErr.valueError ("invalid literal for int with base 10: " ++ "abc")) (by rfl)

/-- C6: the registry is exactly the fixed four stage names and its count
equals the length of the list, namely 4, on every call (it is a
constant, hence pure and deterministic). -/
theorem STEPS_registry_fixed :
    STEPS = ["Upload File", "Map Accounts", "Review Results", "Finalize"] ∧
      STEPS.length = 4 :=
  ⟨rfl, rfl⟩

/-- C7: render fails, and fails with ZeroDivisionError, exactly when the
registry is empty; on the fixed STEPS registry it always succeeds. -/
theorem render_progress_division_error (registry : List String) (step : Int) :
    ((∃ e, render_progress_in registry step = Except.error e) ↔ registry.length = 0) ∧
    (registry.length = 0 →
      render_progress_in registry step = Except.error PyErr.zeroDivisionError) ∧
    (∃ out, render_progress step = Except.ok out) := by
  by_cases h : registry.length = 0
  · refine ⟨?_, ?_, ?_⟩
    · simp [render_progress_in, pyDiv, h]
    · intro _
      simp [render_progress_in, pyDiv, h]
    · exact ⟨[UIEvent.writeText (progressLabel step 4),
        UIEvent.writeProgress (((step : Rat) + 1) / 4)],
        by simp [render_progress, render_progress_in, pyDiv, STEPS]⟩
  · have hz : (registry.length : Rat) ≠ 0 := by
      simpa using h
    refine ⟨?_, fun hc => absurd hc h, ?_⟩
    · simp [render_progress_in, pyDiv, hz, h]
    · exact ⟨[UIEvent.writeText (progressLabel step 4),
        UIEvent.writeProgress (((step : Rat) + 1) / 4)],
        by simp [render_progress, render_progress_in, pyDiv, STEPS]⟩

/-- C8: every operation trace the component issues against the session
state consists of reads only, so replaying any of them leaves the store
unchanged: the component never writes a key. -/
theorem session_state_read_only (s : SessionState) :
    (main_ops.all fun op => ! SessOp.isWrite op) = true ∧
    applySessOps compute_current_step_ops s = s ∧
    applySessOps render_progress_ops s = s ∧
    applySessOps main_ops s = s :=
  ⟨rfl, rfl, rfl, rfl⟩

/-- C9: values that int(...) accepts even though they are not integers
are silently converted: floats truncate toward zero (floor when
nonnegative, ceiling otherwise), booleans map to 0 or 1, and numeric
strings parse to their value. -/
theorem compute_current_step_coercions (s : SessionState) (q : Rat) (b : Bool)
    (txt : String) (n : Int) (h : pyStrToInt txt = Option.some n) :
    compute_current_step (sessSet s "current_step" (PyVal.float q)) =
        Except.ok (ratTruncTowardZero q) ∧
    ratTruncTowardZero q = (if 0 ≤ q then ⌊q⌋ else ⌈q⌉) ∧
    compute_current_step (sessSet s "current_step" (PyVal.bool b)) =
        Except.ok (if b then 1 else 0) ∧
    compute_current_step (sessSet s "current_step" (PyVal.str txt)) = Except.ok n := by
  refine ⟨?_, ratTruncTowardZero_eq_floor_or_ceil q, ?_, ?_⟩ <;>
    simp [compute_current_step, sessSet, sessGet, pyToInt, List.lookup, h]

/-- Witness for C9 on the numeric string "3", a float, and a boolean. -/
theorem compute_current_step_coercions_witness :
    pyStrToInt "3" = Option.some 3 ∧
      (compute_current_step (sessSet [] "current_step" (PyVal.float (29 / 10))) =
          Except.ok (ratTruncTowardZero (29 / 10)) ∧
        ratTruncTowardZero (29 / 10) =
          (if 0 ≤ (29 / 10 : Rat) then ⌊(29 / 10 : Rat)⌋ else ⌈(29 / 10 : Rat)⌉) ∧
        compute_current_step (sessSet [] "current_step" (PyVal.bool true)) =
          Except.ok (if true then 1 else 0) ∧
        compute_current_step (sessSet [] "current_step" (PyVal.str "3")) = Except.ok 3) :=
  ⟨by decide, compute_current_step_coercions [] (29 / 10) true "3" 3 (by decide)⟩

/-- C10: compute_current_step depends only on the "current_step" entry
of the session state: two states that agree on that key give the same
result whatever their other keys hold. -/
theorem compute_current_step_depends_only_on_key (s1 s2 : SessionState)
    (h : s1.lookup "current_step" = s2.lookup "current_step") :
    compute_current_step s1 = compute_current_step s2 := by
  simp [compute_current_step, sessGet, h]

/-- Witness for C10 on two states differing away from "current_step". -/
theorem compute_current_step_depends_only_on_key_witness :
    ([("other", PyVal.int 9), ("current_step", PyVal.int 1)] : SessionState).lookup "current_step" =
        ([("current_step", PyVal.int 1), ("x", PyVal.str "y")] : SessionState).lookup "current_step" ∧
      compute_current_step [("other", PyVal.int 9), ("current_step", PyVal.int 1)] =
        compute_current_step [("current_step", PyVal.int 1), ("x", PyVal.str "y")] :=
  ⟨by decide,
    compute_current_step_depends_only_on_key
      [("other", PyVal.int 9), ("current_step", PyVal.int 1)]
      [("current_step", PyVal.int 1), ("x", PyVal.str "y")] (by decide)⟩
